import Mathlib

/-!
# WhatsADK — multi-tenant verification / token-trust engine, shallow embedding

This file embeds the verification orchestrator (`internal/verification/handler.go`),
the two-phase JWT inspector (`internal/auth/verify_token.go`), the key registry
(`internal/auth/key_registry.go`), the RS256 callback-token issuer
(`internal/auth/jwt.go`), and the WhatsApp OAuth login handler with its
sliding-window rate limiter (`internal/auth/oauth_handler.go`,
`internal/auth/oauth_token.go`), and proves the spec claims about them.

Cryptographic material is embedded symbolically: key pairs are identified by a
natural-number id, and a token records the id of the key whose valid signature it
carries (`sigKey = none` means the signature verifies under no registered key).
Wall-clock instants are integers (seconds); JWT `exp` validation follows
golang-jwt/v5 (`now < exp` is valid, absent `exp` is accepted).
-/

namespace WhatsADK

/-! ## Verification claims and the inbound token (internal/auth/verify_token.go) -/

/-- Embeds `VerificationClaims` — the JSON claims of the tenant-signed inbound token:
`mobile`, `app_name`, `callback_url`, `challenge_id` plus the registered `exp`. -/
structure VerificationClaims where
  mobile : String
  appName : String
  callbackURL : String
  challengeID : String
  exp : Option Int
  deriving DecidableEq, Repr

/-- Declared signing algorithm of a JWT.  `algNone` is the insecure "none". -/
inductive Alg where
  | RS256 | RS384 | RS512 | PS256 | HS256 | ES256 | EdDSA | algNone
  deriving DecidableEq, Repr

/-- The keyfunc in `VerifyVerificationToken` type-asserts `*jwt.SigningMethodRSA`,
which covers exactly the RS family (not PSS, not HMAC, not "none"). -/
def Alg.isRSA : Alg → Bool
  | .RS256 => true
  | .RS384 => true
  | .RS512 => true
  | _ => false

/-- An inbound raw message, abstracted to the attributes the token inspector
reads: whether the trimmed text starts with `"eyJ"`, how many dot-separated
segments it has, the (signature-unverified) decoded payload if it parses as a
JWT, the declared algorithm, and the id of the key whose signature it carries
(`none`: the signature verifies under no key). -/
structure RawMessage where
  startsEyJ : Bool
  segments : Nat
  payload : Option VerificationClaims
  alg : Alg
  sigKey : Option Nat
  deriving DecidableEq, Repr

/-- Embeds `IsVerificationToken` — the cheap unverified classifier: trimmed text must
start with `"eyJ"`, split into exactly 3 dot-separated parts, parse without
signature verification, and carry non-empty `mobile`, `app_name` and
`callback_url`. -/
def IsVerificationToken (raw : RawMessage) : Option VerificationClaims :=
  if ¬ raw.startsEyJ then none
  else if raw.segments ≠ 3 then none
  else match raw.payload with
    | none => none
    | some claims =>
      if claims.mobile = "" ∨ claims.appName = "" ∨ claims.callbackURL = "" then none
      else some claims

/-- golang-jwt/v5 expiry validation: a present `exp` is valid iff `now < exp`;
an absent `exp` is accepted. -/
def isExpiredAt (now : Int) : Option Int → Bool
  | none => false
  | some e => e ≤ now

/-- Distinguishable failure outcomes of `VerifyVerificationToken`:
`malformed` (ParseWithClaims cannot decode the token), `unexpectedSigningMethod`
(keyfunc rejects a non-RSA alg), `invalidSignature`, `expired`
(`jwt.ErrTokenExpired`), and `missingClaims` (the explicit
"missing required claims" error). -/
inductive VerifyError where
  | malformed
  | unexpectedSigningMethod
  | invalidSignature
  | expired
  | missingClaims
  deriving DecidableEq, Repr

/-- Embeds `VerifyVerificationToken` — full verification: parse, enforce an RSA signing
method, verify the signature against the tenant key, validate `exp`, then
require all four business fields non-empty. -/
def VerifyVerificationToken (raw : RawMessage) (appKey : Nat) (now : Int) :
    Except VerifyError VerificationClaims :=
  if raw.segments ≠ 3 then .error .malformed
  else match raw.payload with
    | none => .error .malformed
    | some claims =>
      if ¬ raw.alg.isRSA then .error .unexpectedSigningMethod
      else if raw.sigKey ≠ some appKey then .error .invalidSignature
      else if isExpiredAt now claims.exp then .error .expired
      else if claims.mobile = "" ∨ claims.appName = "" ∨ claims.callbackURL = "" ∨
          claims.challengeID = "" then .error .missingClaims
      else .ok claims

/-! ## Key registry (internal/auth/key_registry.go) -/

/-- Embeds `KeyRegistry.GetAppPublicKey` — pure lookup of the tenant's registered
public key by `app_name`; `none` models the "unknown app" error. -/
def GetAppPublicKey (appKeys : List (String × Nat)) (appName : String) : Option Nat :=
  (appKeys.find? (fun p => p.1 = appName)).map (fun p => p.2)

/-! ## RS256 callback-token issuer (internal/auth/jwt.go) -/

/-- The gateway's callback JWT claims.
Modelled from the spec: the Go source file declaring `Claims` is not under
`src/` (only its callers in `internal/auth/jwt.go`, its tests and the repo
docs are); the claim set `user_id`, `channel`, `iss`, `aud`, `iat`, `exp`
follows the spec's CallbackAssertion and the repository's JWT documentation. -/
structure Claims where
  UserID : String
  Channel : String
  Issuer : String
  Audience : String
  iat : Int
  exp : Int
  deriving DecidableEq, Repr

/-- A JSON claim value: string or number. -/
inductive ClaimValue where
  | s (v : String)
  | n (v : Int)
  deriving DecidableEq, Repr

/-- The JSON fields of a marshalled callback JWT payload (`iss` carries
`omitempty`). -/
def claimsFields (c : Claims) : List (String × ClaimValue) :=
  [("user_id", .s c.UserID), ("channel", .s c.Channel)] ++
    (if c.Issuer = "" then [] else [("iss", .s c.Issuer)]) ++
    [("aud", .s c.Audience), ("iat", .n c.iat), ("exp", .n c.exp)]

/-- Embeds `JWTGenerator` — RS256 issuer state: issuer, configured audience, TTL. -/
structure JWTGenerator where
  issuer : String
  audience : String
  ttl : Int
  deriving DecidableEq, Repr

/-- Embeds `JWTGenerator.TokenWithAudience` — callback-token issuance with a per-call
audience.
Modelled from the spec: the Go method body is not under `src/` (only its call
site in `internal/verification/handler.go`, its test `TestTokenWithAudience`
and the implementation-plan document are); it sets `user_id` to the subject,
`channel` to the fixed `"whatsapp"`, the issuer from configuration, the given
audience, and `exp = iat + ttl`. -/
def JWTGenerator.TokenWithAudience (g : JWTGenerator) (userID audience : String)
    (now : Int) : Claims :=
  { UserID := userID
    Channel := "whatsapp"
    Issuer := g.issuer
    Audience := audience
    iat := now
    exp := now + g.ttl }

/-! ## Verification orchestrator (internal/verification/handler.go) -/

/-- Embeds `normalizePhone` — strip every non-digit character. -/
def normalizePhone (phone : String) : String :=
  ⟨phone.data.filter (fun c => '0' ≤ c ∧ c ≤ '9')⟩

/-- Outcome of one `IsBlacklisted` collaborator call: lookup error, blocked,
or allowed. -/
inductive BlacklistResult where
  | err
  | blocked
  | allowed
  deriving DecidableEq, Repr

/-- Response observed by `postCallback` for a POST to a URL: transport error,
or an HTTP status code. -/
inductive HttpResponse where
  | netError
  | status (code : Nat)
  deriving DecidableEq, Repr

/-- Embeds `Handler.postCallback` — returns `true` (no error) unless the transport
errors or the response status is `>= 400`. -/
def postCallback (http : String → HttpResponse) (callbackURL : String) : Bool :=
  match http callbackURL with
  | .netError => false
  | .status code => ¬ (400 ≤ code)

/-- The five configured user-facing reply strings. -/
structure VerificationMessages where
  Success : String
  Expired : String
  PhoneMismatch : String
  Blacklisted : String
  Error : String
  deriving DecidableEq, Repr

/-- Embeds `verification.Handler` — registry, devops-override set (already normalized
by `NewHandler`), and reply strings.  The collaborators (blacklist capability
and HTTP transport) are passed to `Handle` explicitly. -/
structure Handler where
  appKeys : List (String × Nat)
  devOpsNumbers : List String
  messages : VerificationMessages
  deriving DecidableEq, Repr

/-- Embeds `NewHandler` — normalizes every configured devops number. -/
def NewHandler (appKeys : List (String × Nat)) (devOpsNumbers : List String)
    (messages : VerificationMessages) : Handler :=
  { appKeys := appKeys
    devOpsNumbers := devOpsNumbers.map normalizePhone
    messages := messages }

/-- The observable outcome of `Handler.Handle`: the reply string and the list
of callback POSTs attempted (URL and bearer claims). -/
structure HandleResult where
  reply : String
  posts : List (String × Claims)
  deriving DecidableEq, Repr

/-- Steps 3–7 of `Handler.Handle` (after classification and the blacklist
gate): tenant-key lookup, full verification, phone match / devops override,
callback-token issuance and dispatch. -/
def handleVerified (h : Handler) (jwtGen : JWTGenerator)
    (http : String → HttpResponse) (now : Int) (senderNormalized : String)
    (claims : VerificationClaims) (raw : RawMessage) : HandleResult :=
  match GetAppPublicKey h.appKeys claims.appName with
  | none => ⟨h.messages.Error, []⟩
  | some appKey =>
    match VerifyVerificationToken raw appKey now with
    | .error _ => ⟨h.messages.Expired, []⟩
    | .ok verified =>
      let mobileNormalized := normalizePhone verified.mobile
      if senderNormalized ≠ mobileNormalized ∧
          senderNormalized ∉ h.devOpsNumbers then
        ⟨h.messages.PhoneMismatch, []⟩
      else
        let callbackJWT := jwtGen.TokenWithAudience senderNormalized verified.appName now
        if postCallback http verified.callbackURL then
          ⟨h.messages.Success, [(verified.callbackURL, callbackJWT)]⟩
        else
          ⟨h.messages.Error, [(verified.callbackURL, callbackJWT)]⟩

/-- Embeds `Handler.Handle` — the end-to-end orchestration: classification, sender
normalization, blacklist gate (skipped when no capability is configured), then
`handleVerified`. -/
def Handler.Handle (h : Handler) (jwtGen : JWTGenerator)
    (blacklist : Option (String → BlacklistResult))
    (http : String → HttpResponse) (now : Int)
    (senderPhone : String) (raw : RawMessage) : HandleResult :=
  match IsVerificationToken raw with
  | none => ⟨"", []⟩
  | some claims =>
    let senderNormalized := normalizePhone senderPhone
    match blacklist with
    | some bl =>
      match bl senderNormalized with
      | .err => ⟨h.messages.Error, []⟩
      | .blocked => ⟨h.messages.Blacklisted, []⟩
      | .allowed => handleVerified h jwtGen http now senderNormalized claims raw
    | none => handleVerified h jwtGen http now senderNormalized claims raw

/-! ## Sliding-window rate limiter (internal/auth/oauth_handler.go, checkRateLimit) -/

/-- The admission window: `now.Add(-1 * time.Hour)`, in seconds. -/
def rateLimitWindow : Int := 3600

/-- The per-identity request history (`history map[string][]time.Time`),
as an association list from phone to recorded instants. -/
def RateHistory := List (String × List Int)

/-- Read a phone's recorded timestamps (a missing map entry reads as `[]`). -/
def lookupHist (hist : RateHistory) (phone : String) : List Int :=
  match hist.find? (fun p => p.1 == phone) with
  | some p => p.2
  | none => []

/-- Write a phone's timestamp list (map assignment). -/
def setHist (hist : RateHistory) (phone : String) (v : List Int) : RateHistory :=
  (phone, v) :: hist.eraseP (fun p => p.1 == phone)

/-- Embeds `checkRateLimit` — prune the phone's timestamps to those strictly after
`now - window` (`t.After(cutoff)`); deny and store only the pruned list when
the configured maximum is reached, otherwise append `now` and grant. -/
def checkRateLimit (rateLimit : Nat) (hist : RateHistory) (now : Int)
    (phone : String) : Bool × RateHistory :=
  let cutoff := now - rateLimitWindow
  let timestamps := lookupHist hist phone
  let valid := timestamps.filter (fun t => cutoff < t)
  if rateLimit ≤ valid.length then
    (false, setHist hist phone valid)
  else
    (true, setHist hist phone (valid ++ [now]))

/-- A sequence of admission checks for one phone at the given instants,
threading the history; returns the grant/deny outcomes and the final history. -/
def runChecks (rateLimit : Nat) (hist : RateHistory) (phone : String) :
    List Int → List Bool × RateHistory
  | [] => ([], hist)
  | t :: ts =>
    let step := checkRateLimit rateLimit hist t phone
    let rest := runChecks rateLimit step.2 phone ts
    (step.1 :: rest.1, rest.2)

/-! ## WhatsApp OAuth login handler (internal/auth/oauth_handler.go) -/

/-- Go `regexp` character class `\s`: tab, newline, form feed, carriage
return, space. -/
def goRegexSpace (c : Char) : Bool :=
  c == '\t' || c == '\n' || c == '\x0c' || c == '\r' || c == ' '

/-- ASCII white space trimmed by `strings.TrimSpace` (tab through carriage
return, space). -/
def goSpaceRune (c : Char) : Bool :=
  c == ' ' || ('\t' ≤ c && c ≤ '\r')

/-- Embeds `strings.TrimSpace` on ASCII input: drop white space from both ends. -/
def goTrimSpace (s : List Char) : List Char :=
  ((s.dropWhile goSpaceRune).reverse.dropWhile goSpaceRune).reverse

/-- The regex class `[A-Za-z0-9_-]` (base64url alphabet). -/
def isBase64urlChar (c : Char) : Bool :=
  ('A' ≤ c && c ≤ 'Z') || ('a' ≤ c && c ≤ 'z') || ('0' ≤ c && c ≤ '9') ||
    c == '-' || c == '_'

/-- The anchored pattern `^AUTH\s+([A-Za-z0-9_-]{43}=?)\s+([A-Za-z0-9_-]{16,})$`
(`authCommandRe.FindStringSubmatch`): returns the two capture groups, the
public-key text (43 class characters plus an optional `=`) and the nonce
(at least 16 class characters, running to the end). -/
def matchAuthCommand (s : List Char) : Option (List Char × List Char) :=
  match s with
  | 'A' :: 'U' :: 'T' :: 'H' :: rest =>
    let sp1 := rest.takeWhile goRegexSpace
    let r1 := rest.dropWhile goRegexSpace
    if sp1.length = 0 then none
    else
      let key := r1.take 43
      if key.length = 43 ∧ key.all isBase64urlChar then
        let r2 := r1.drop 43
        let keyFull := if r2.take 1 = ['='] then key ++ ['='] else key
        let r3 := if r2.take 1 = ['='] then r2.drop 1 else r2
        let sp2 := r3.takeWhile goRegexSpace
        let r4 := r3.dropWhile goRegexSpace
        if sp2.length = 0 then none
        else if 16 ≤ r4.length ∧ r4.all isBase64urlChar then some (keyFull, r4)
        else none
      else none
  | _ => none

/-- Embeds `IsAuthCommand` — case-insensitive routing check: the trimmed, uppercased
text starts with `"AUTH "`. -/
def IsAuthCommand (text : String) : Bool :=
  List.isPrefixOf ['A', 'U', 'T', 'H', ' '] ((goTrimSpace text.data).map Char.toUpper)

/-- Embeds `base64.RawURLEncoding.DecodeString`, abstracted to its decoded byte
length: succeeds iff every character is in the unpadded base64url alphabet and
the length is not `1 (mod 4)`; the decoded length is `3*(n/4)` plus 1 or 2 for
a residue of 2 or 3. -/
def rawURLDecodedLength (s : List Char) : Option Nat :=
  if s.all isBase64urlChar ∧ s.length % 4 ≠ 1 then
    some (3 * (s.length / 4) +
      (if s.length % 4 = 2 then 1 else if s.length % 4 = 3 then 2 else 0))
  else none

/-- The EdDSA login-token claims (`OAuthClaims`): `nonce`, `pubkey`, and the
registered `sub`, `iss`, `aud`, `iat`, `exp`. -/
structure OAuthClaims where
  Nonce : String
  PubKey : String
  Subject : String
  Issuer : String
  Audience : String
  iat : Int
  exp : Int
  deriving DecidableEq, Repr

/-- Embeds `OAuthHandler` — deep-link base URL (stored right-trimmed of `/` by
`NewOAuthHandler`), rate limit, and the token generator's issuer / audience /
TTL. -/
structure OAuthHandler where
  spaURL : String
  rateLimit : Nat
  issuer : String
  audience : String
  ttl : Int
  deriving DecidableEq, Repr

/-- Embeds `strings.TrimRight(spaURL, "/")`. -/
def trimRightSlash (s : String) : String :=
  ⟨(s.data.reverse.dropWhile (fun c => c == '/')).reverse⟩

/-- Embeds `NewOAuthHandler` — right-trims the SPA URL of trailing slashes. -/
def NewOAuthHandler (spaURL : String) (rateLimit : Nat)
    (issuer audience : String) (ttl : Int) : OAuthHandler :=
  { spaURL := trimRightSlash spaURL
    rateLimit := rateLimit
    issuer := issuer
    audience := audience
    ttl := ttl }

/-- Embeds `OAuthTokenGenerator.Token` — builds the EdDSA-signed login claims: the
client nonce and base64url public key verbatim, subject = phone,
`exp = iat + ttl`. -/
def OAuthToken (h : OAuthHandler) (now : Int) (phone nonce userPubKey : String) :
    OAuthClaims :=
  { Nonce := nonce
    PubKey := userPubKey
    Subject := phone
    Issuer := h.issuer
    Audience := h.audience
    iat := now
    exp := now + h.ttl }

/-- The structured replies of `OAuthHandler.Handle`: the three rejection
replies, the throttling reply, and the deep-link reply
`<spaURL>/auth#token=<token>&nonce=<nonce>` carrying the issued claims. -/
inductive OAuthReply where
  | invalidFormat
  | invalidBase64
  | invalidKeyLength (n : Nat)
  | rateLimited
  | loginLink (spaURL : String) (token : OAuthClaims) (nonce : String)
  deriving DecidableEq, Repr

/-- Outcome of one `OAuthHandler.Handle` call: the reply (`none` when the
handler returned `("", err)`), whether a non-nil error was returned, and the
rate-limiter history afterwards. -/
structure OAuthHandleResult where
  reply : Option OAuthReply
  errored : Bool
  hist : RateHistory

/-- Embeds `OAuthHandler.Handle` — trim, match the strict pattern, decode and
length-check the key, admit through the rate limiter, then issue the login
token and deep link.  `signFail` models `tokenGen.Token` returning an error
(the only path on which Go returns a non-nil error). -/
def OAuthHandler.Handle (h : OAuthHandler) (signFail : Bool) (hist : RateHistory)
    (now : Int) (senderPhone messageBody : String) : OAuthHandleResult :=
  let body := goTrimSpace messageBody.data
  match matchAuthCommand body with
  | none => ⟨some .invalidFormat, false, hist⟩
  | some (userPubKey, nonce) =>
    match rawURLDecodedLength userPubKey with
    | none => ⟨some .invalidBase64, false, hist⟩
    | some n =>
      if n ≠ 32 then ⟨some (.invalidKeyLength n), false, hist⟩
      else
        let step := checkRateLimit h.rateLimit hist now senderPhone
        if ¬ step.1 then ⟨some .rateLimited, false, step.2⟩
        else if signFail then ⟨none, true, step.2⟩
        else
          ⟨some (.loginLink h.spaURL (OAuthToken h now senderPhone ⟨nonce⟩ ⟨userPubKey⟩) ⟨nonce⟩),
            false, step.2⟩

/-! ## Concrete instances used by the evaluation theorems and witnesses -/

/-- A concrete reply-string configuration. -/
def demoMessages : VerificationMessages :=
  { Success := "verification successful"
    Expired := "expired or invalid"
    PhoneMismatch := "phone mismatch"
    Blacklisted := "blocked"
    Error := "something went wrong" }

/-- A concrete handler: one registered tenant `test-app` with key id 7, no
devops overrides. -/
def demoHandler : Handler := NewHandler [("test-app", 7)] [] demoMessages

/-- A concrete handler with the devops override `919999999999` configured,
mirroring `TestHandler_PhoneMismatch_DevOps`. -/
def demoHandlerDevOps : Handler :=
  NewHandler [("test-app", 7)] ["919999999999"] demoMessages

/-- A concrete RS256 generator with the gateway defaults (2-minute TTL). -/
def demoGen : JWTGenerator :=
  { issuer := "whatsadk-gateway", audience := "", ttl := 120 }

/-- A well-formed inbound token signed by tenant key 7, parameterized by its
`callback_url` claim. -/
def demoRaw (url : String) : RawMessage :=
  { startsEyJ := true
    segments := 3
    payload := some { mobile := "910987654321", appName := "test-app",
                      callbackURL := url, challengeID := "abc-123", exp := some 2000 }
    alg := .RS256
    sigKey := some 7 }

/-- A transport that answers 200 OK to every POST. -/
def httpOK : String → HttpResponse := fun _ => .status 200

/-- A transport that answers 302 Found to every POST. -/
def http302 : String → HttpResponse := fun _ => .status 302

/-- A blacklist capability blocking exactly `910987654321`. -/
def demoBlacklist : String → BlacklistResult :=
  fun p => if p = "910987654321" then .blocked else .allowed

/-- The callback claims issued in the demo success flow. -/
def demoCallbackClaims : Claims :=
  { UserID := "910987654321"
    Channel := "whatsapp"
    Issuer := "whatsadk-gateway"
    Audience := "test-app"
    iat := 1000
    exp := 1120 }

/-! ## C1 — callback destination -/

/-- C1: the claim says the dispatched POST's URL is resolved strictly from the
tenant's statically configured `callback_base_url` and never from any field of
the inbound assertion.  The code does the opposite: evaluating `Handle` on two
inbound tokens that are identical except for their `callback_url` claim shows
the POST goes to whatever URL the token carries — including an attacker-chosen
one — so the destination is a function of the inbound assertion, and no static
per-tenant callback URL exists in the configuration (`AppVerifyConfig` has only
`PublicKeyPath`). -/
theorem C1_dispatch_uses_token_callback_url :
    (demoHandler.Handle demoGen none httpOK 1000 "910987654321"
        (demoRaw "https://evil.example/steal")).posts.map Prod.fst =
      ["https://evil.example/steal"] ∧
    (demoHandler.Handle demoGen none httpOK 1000 "910987654321"
        (demoRaw "https://legit.example/callback")).posts.map Prod.fst =
      ["https://legit.example/callback"] := by
  constructor <;> decide

/-! ## C2 — callback assertion contents -/

/-- C2: the claim says the dispatched bearer assertion carries a
`challenge_id` claim equal to the inbound `challenge_id` and an `aud` claim
equal to the inbound `app_name`.  Evaluating the success flow shows exactly one
callback is dispatched and its `aud` is the app name, but the marshalled claim
set (`user_id`, `channel`, `iss`, `aud`, `iat`, `exp`) contains no
`challenge_id` field at all: `TokenWithAudience` has no challenge input. -/
theorem C2_callback_assertion_has_no_challenge_id :
    (demoHandler.Handle demoGen none httpOK 1000 "910987654321"
        (demoRaw "https://legit.example/callback")).posts =
      [("https://legit.example/callback", demoCallbackClaims)] ∧
    ("aud", ClaimValue.s "test-app") ∈ claimsFields demoCallbackClaims ∧
    "challenge_id" ∉ (claimsFields demoCallbackClaims).map Prod.fst := by
  refine ⟨by decide, by decide, by decide⟩

/-! ## C3 — redirect handling -/

/-- C3: the claim says a 3xx response from the callback endpoint is treated as
a dispatch failure yielding the generic error reply.  `postCallback` fails only
on a transport error or a status `>= 400`, so a 302 answer is a success: the
orchestrator replies with the success message, not the error message (and the
handler's `http.Client` is built with only a timeout, so the default transport
would in fact follow the redirect). -/
theorem C3_redirect_status_is_treated_as_success :
    postCallback http302 "https://legit.example/callback" = true ∧
    (demoHandler.Handle demoGen none http302 1000 "910987654321"
        (demoRaw "https://legit.example/callback")).reply =
      demoMessages.Success ∧
    demoMessages.Success ≠ demoMessages.Error := by
  refine ⟨by decide, by decide, by decide⟩

/-! ## C4 — classification condition -/

/-- The classification condition in the spec's words: the text structurally
resembles a three-segment signed token and its unverified payload carries
non-empty `mobile`, `app_name` and `challenge_id`. -/
def specClassifierCandidate (raw : RawMessage) : Bool :=
  raw.startsEyJ && raw.segments == 3 &&
    (match raw.payload with
     | none => false
     | some c => c.mobile != "" && c.appName != "" && c.challengeID != "")

/-- A structurally token-like message whose payload has non-empty `mobile`,
`app_name` and `challenge_id` but an empty `callback_url`. -/
def rawEmptyCallbackURL : RawMessage :=
  { startsEyJ := true
    segments := 3
    payload := some { mobile := "910987654321", appName := "test-app",
                      callbackURL := "", challengeID := "abc-123", exp := some 2000 }
    alg := .RS256
    sigKey := some 7 }

/-- C4 counterexample: `rawEmptyCallbackURL` satisfies the claim's condition
(three-segment token shape, non-empty `mobile`/`app_name`/`challenge_id`), yet
`IsVerificationToken` returns no candidate — the code requires a non-empty
`callback_url` and never looks at `challenge_id`, so the claimed
"exactly when" fails at this input. -/
theorem C4_counterexample_challenge_id_not_checked :
    specClassifierCandidate rawEmptyCallbackURL = true ∧
    IsVerificationToken rawEmptyCallbackURL = none := by
  constructor <;> decide

/-- C4 (amended): `classify` returns an unverified candidate exactly when the
text structurally resembles a three-segment signed token and its unverified
payload carries non-empty `mobile`, `app_name` and `callback_url` fields
(`challenge_id` is not inspected at classification); on every other input it
returns none. -/
theorem C4_amended_classifier_characterization (raw : RawMessage) :
    (IsVerificationToken raw).isSome =
      (raw.startsEyJ && raw.segments == 3 &&
        (match raw.payload with
         | none => false
         | some c => c.mobile != "" && c.appName != "" && c.callbackURL != "")) := by
  rcases raw with ⟨se, seg, pay, alg, sk⟩
  cases pay with
  | none =>
    cases se <;> by_cases hseg : seg = 3 <;> simp [IsVerificationToken, hseg]
  | some c =>
    cases se <;> by_cases hseg : seg = 3 <;>
      by_cases hm : c.mobile = "" <;> by_cases ha : c.appName = "" <;>
      by_cases hc : c.callbackURL = "" <;>
      simp [IsVerificationToken, hseg, hm, ha, hc]

/-! ## C5 — distinguishable verification failures -/

/-- C5: full verification fails with `invalidSignature`, `expired`, and
`missingClaims` as three pairwise distinct outcomes: a token whose signature
does not verify under the tenant key fails with `invalidSignature`; a
correctly signed token whose `exp` has passed fails with `expired`; a
correctly signed, unexpired token with an empty business field fails with
`missingClaims`. -/
theorem C5_verification_failures_are_distinct
    (r1 r2 r3 : RawMessage) (c1 c2 c3 : VerificationClaims) (k : Nat) (now : Int)
    (h1seg : r1.segments = 3) (h1pay : r1.payload = some c1)
    (h1alg : r1.alg.isRSA = true) (h1sig : r1.sigKey ≠ some k)
    (h2seg : r2.segments = 3) (h2pay : r2.payload = some c2)
    (h2alg : r2.alg.isRSA = true) (h2sig : r2.sigKey = some k)
    (h2exp : isExpiredAt now c2.exp = true)
    (h3seg : r3.segments = 3) (h3pay : r3.payload = some c3)
    (h3alg : r3.alg.isRSA = true) (h3sig : r3.sigKey = some k)
    (h3exp : isExpiredAt now c3.exp = false)
    (h3miss : c3.mobile = "" ∨ c3.appName = "" ∨ c3.callbackURL = "" ∨
      c3.challengeID = "") :
    VerifyVerificationToken r1 k now = .error .invalidSignature ∧
    VerifyVerificationToken r2 k now = .error .expired ∧
    VerifyVerificationToken r3 k now = .error .missingClaims ∧
    VerifyError.invalidSignature ≠ VerifyError.expired ∧
    VerifyError.invalidSignature ≠ VerifyError.missingClaims ∧
    VerifyError.expired ≠ VerifyError.missingClaims := by
  refine ⟨?_, ?_, ?_, by decide, by decide, by decide⟩
  · simp [VerifyVerificationToken, h1seg, h1pay, h1alg, h1sig]
  · simp [VerifyVerificationToken, h2seg, h2pay, h2alg, h2sig, h2exp]
  · simp [VerifyVerificationToken, h3seg, h3pay, h3alg, h3sig, h3exp, h3miss]

/-- Closed witness for C5: the three failure modes realized on concrete
tokens (wrong signer; signed by key 7 but expired at time 3000; signed and
unexpired but with an empty `mobile`). -/
theorem C5_verification_failures_are_distinct_witness :
    VerifyVerificationToken
        { startsEyJ := true, segments := 3,
          payload := some { mobile := "910987654321", appName := "test-app",
                            callbackURL := "https://cb.example", challengeID := "abc-123",
                            exp := some 9000 },
          alg := .RS256, sigKey := some 8 } 7 3000 = .error .invalidSignature ∧
    VerifyVerificationToken
        { startsEyJ := true, segments := 3,
          payload := some { mobile := "910987654321", appName := "test-app",
                            callbackURL := "https://cb.example", challengeID := "abc-123",
                            exp := some 2000 },
          alg := .RS256, sigKey := some 7 } 7 3000 = .error .expired ∧
    VerifyVerificationToken
        { startsEyJ := true, segments := 3,
          payload := some { mobile := "", appName := "test-app",
                            callbackURL := "https://cb.example", challengeID := "abc-123",
                            exp := some 9000 },
          alg := .RS256, sigKey := some 7 } 7 3000 = .error .missingClaims ∧
    VerifyError.invalidSignature ≠ VerifyError.expired ∧
    VerifyError.invalidSignature ≠ VerifyError.missingClaims ∧
    VerifyError.expired ≠ VerifyError.missingClaims :=
  C5_verification_failures_are_distinct
    { startsEyJ := true, segments := 3,
      payload := some { mobile := "910987654321", appName := "test-app",
                        callbackURL := "https://cb.example", challengeID := "abc-123",
                        exp := some 9000 },
      alg := .RS256, sigKey := some 8 }
    { startsEyJ := true, segments := 3,
      payload := some { mobile := "910987654321", appName := "test-app",
                        callbackURL := "https://cb.example", challengeID := "abc-123",
                        exp := some 2000 },
      alg := .RS256, sigKey := some 7 }
    { startsEyJ := true, segments := 3,
      payload := some { mobile := "", appName := "test-app",
                        callbackURL := "https://cb.example", challengeID := "abc-123",
                        exp := some 9000 },
      alg := .RS256, sigKey := some 7 }
    _ _ _ 7 3000
    rfl rfl rfl (by decide) rfl rfl rfl rfl (by decide)
    rfl rfl rfl rfl (by decide) (by decide)

/-! ## C6 — blacklist gate -/

/-- C6: for every handler configuration, every token (whatever its signature,
algorithm, expiry or claims) and every collaborator behaviour, once the
classifier yields a candidate and the blacklist reports the normalized sender
as blocked, `Handle` returns the blocked reply and dispatches nothing — the
result is the same for all registries and all token validity, so no tenant-key
lookup, signature verification or callback can influence it. -/
theorem C6_blacklisted_sender_stops_flow
    (h : Handler) (g : JWTGenerator) (bl : String → BlacklistResult)
    (http : String → HttpResponse) (now : Int) (senderPhone : String)
    (raw : RawMessage) (claims : VerificationClaims)
    (hclass : IsVerificationToken raw = some claims)
    (hbl : bl (normalizePhone senderPhone) = .blocked) :
    h.Handle g (some bl) http now senderPhone raw =
      ⟨h.messages.Blacklisted, []⟩ := by
  simp [Handler.Handle, hclass, hbl]

/-- Closed witness for C6: the demo blacklist blocks `910987654321`, so a
perfectly valid token from that sender yields the blocked reply and no POST. -/
theorem C6_blacklisted_sender_stops_flow_witness :
    demoHandler.Handle demoGen (some demoBlacklist) httpOK 1000 "910987654321"
        (demoRaw "https://legit.example/callback") =
      ⟨demoMessages.Blacklisted, []⟩ :=
  C6_blacklisted_sender_stops_flow demoHandler demoGen demoBlacklist httpOK 1000
    "910987654321" (demoRaw "https://legit.example/callback")
    { mobile := "910987654321", appName := "test-app",
      callbackURL := "https://legit.example/callback", challengeID := "abc-123",
      exp := some 2000 }
    (by decide) (by decide)

/-! ## C7 — phone mismatch and the devops override -/

/-- C7: when the normalized sender differs from the normalized `mobile` claim
(after classification, blacklist pass, tenant resolution and full
verification), the orchestrator replies phone-mismatch and dispatches nothing
— unless the sender is in the devops-override set, in which case the flow
proceeds and the dispatched callback assertion carries the sender's normalized
identity (not the claim's mobile) as its `user_id`. -/
theorem C7_phone_mismatch_devops_override
    (h : Handler) (g : JWTGenerator) (blacklist : Option (String → BlacklistResult))
    (http : String → HttpResponse) (now : Int) (senderPhone : String)
    (raw : RawMessage) (claims verified : VerificationClaims) (appKey : Nat)
    (hbl : ∀ bl ∈ blacklist, bl (normalizePhone senderPhone) = .allowed)
    (hclass : IsVerificationToken raw = some claims)
    (hkey : GetAppPublicKey h.appKeys claims.appName = some appKey)
    (hver : VerifyVerificationToken raw appKey now = .ok verified)
    (hmis : normalizePhone senderPhone ≠ normalizePhone verified.mobile) :
    (normalizePhone senderPhone ∉ h.devOpsNumbers →
      h.Handle g blacklist http now senderPhone raw =
        ⟨h.messages.PhoneMismatch, []⟩) ∧
    (normalizePhone senderPhone ∈ h.devOpsNumbers →
      postCallback http verified.callbackURL = true →
      h.Handle g blacklist http now senderPhone raw =
        ⟨h.messages.Success,
          [(verified.callbackURL,
            g.TokenWithAudience (normalizePhone senderPhone) verified.appName now)]⟩ ∧
      (g.TokenWithAudience (normalizePhone senderPhone) verified.appName now).UserID =
        normalizePhone senderPhone) := by
  have hmain : h.Handle g blacklist http now senderPhone raw =
      handleVerified h g http now (normalizePhone senderPhone) claims raw := by
    cases blacklist with
    | none => simp [Handler.Handle, hclass]
    | some bl =>
      have hb := hbl bl rfl
      simp [Handler.Handle, hclass, hb]
  rw [hmain]
  constructor
  · intro hdev
    simp [handleVerified, hkey, hver, hmis, hdev]
  · intro hdev hpost
    refine ⟨?_, rfl⟩
    simp [handleVerified, hkey, hver, hdev, hpost]

/-- Closed witness for C7: sender `919999999999` is configured as devops, the
claim's mobile is `910987654321`; the flow succeeds and the callback claims
carry `user_id = 919999999999`. -/
theorem C7_phone_mismatch_devops_override_witness :
    demoHandlerDevOps.Handle demoGen none httpOK 1000 "919999999999"
        (demoRaw "https://legit.example/callback") =
      ⟨demoMessages.Success,
        [("https://legit.example/callback",
          demoGen.TokenWithAudience "919999999999" "test-app" 1000)]⟩ ∧
    (demoGen.TokenWithAudience "919999999999" "test-app" 1000).UserID =
      "919999999999" :=
  (C7_phone_mismatch_devops_override demoHandlerDevOps demoGen none httpOK 1000
      "919999999999" (demoRaw "https://legit.example/callback")
      { mobile := "910987654321", appName := "test-app",
        callbackURL := "https://legit.example/callback", challengeID := "abc-123",
        exp := some 2000 }
      { mobile := "910987654321", appName := "test-app",
        callbackURL := "https://legit.example/callback", challengeID := "abc-123",
        exp := some 2000 }
      7
      (by intro bl hb; cases hb) (by decide) (by decide) rfl
      (by decide)).2 (by decide) (by decide)

/-! ## C8 — sliding-window rate limiting -/

theorem lookupHist_setHist_self (hist : RateHistory) (phone : String)
    (v : List Int) : lookupHist (setHist hist phone v) phone = v := by
  simp [lookupHist, setHist, List.find?]

/-- The expected grant/deny outcomes of a run of admission checks that all
fall inside one window, as a function of the starting in-window count. -/
def expectedReplies (rateLimit count : Nat) : Nat → List Bool
  | 0 => []
  | n + 1 =>
    decide (count < rateLimit) ::
      expectedReplies rateLimit (if count < rateLimit then count + 1 else count) n

theorem expectedReplies_saturate (rateLimit : Nat) :
    ∀ (d count : Nat), count + d = rateLimit →
      expectedReplies rateLimit count (d + 1) =
        List.replicate d true ++ [false]
  | 0, count, h => by
    have hc : count = rateLimit := by omega
    simp [expectedReplies, hc]
  | d + 1, count, h => by
    have hlt : count < rateLimit := by omega
    have ih := expectedReplies_saturate rateLimit d (count + 1) (by omega)
    show decide (count < rateLimit) ::
        expectedReplies rateLimit
          (if count < rateLimit then count + 1 else count) (d + 1) =
      List.replicate (d + 1) true ++ [false]
    rw [if_pos hlt, ih]
    simp [List.replicate_succ, decide_eq_true hlt]

/-- Main induction for `runChecks`: if the phone's stored timestamps `A` all
remain inside the window at every remaining instant, and the remaining
instants are pairwise inside one another's windows, then the outcomes follow
`expectedReplies` and the final stored list is `A` extended by the granted
instants (the first `rateLimit - A.length` of them). -/
theorem runChecks_eq_expected (rateLimit : Nat) (phone : String) :
    ∀ (ts : List Int) (hist : RateHistory) (A : List Int),
      lookupHist hist phone = A →
      (∀ a ∈ A, ∀ t ∈ ts, t - rateLimitWindow < a) →
      (∀ t ∈ ts, ∀ t' ∈ ts, t' - rateLimitWindow < t) →
      (runChecks rateLimit hist phone ts).1 =
        expectedReplies rateLimit A.length ts.length ∧
      lookupHist (runChecks rateLimit hist phone ts).2 phone =
        A ++ ts.take (rateLimit - A.length)
  | [], hist, A, hA, _, _ => by
    refine ⟨rfl, ?_⟩
    simpa [runChecks] using hA
  | t :: ts, hist, A, hA, hAlive, hPair => by
    have hfilter : A.filter (fun a => decide (t - rateLimitWindow < a)) = A := by
      refine List.filter_eq_self.mpr ?_
      intro a ha
      exact decide_eq_true (hAlive a ha t (List.mem_cons_self t ts))
    by_cases hcap : rateLimit ≤ A.length
    · have hstep : checkRateLimit rateLimit hist t phone =
          (false, setHist hist phone A) := by
        simp [checkRateLimit, hA, hfilter, hcap]
      have ih := runChecks_eq_expected rateLimit phone ts
        (setHist hist phone A) A (lookupHist_setHist_self hist phone A)
        (fun a ha t' ht' => hAlive a ha t' (List.mem_cons_of_mem t ht'))
        (fun x hx y hy =>
          hPair x (List.mem_cons_of_mem t hx) y (List.mem_cons_of_mem t hy))
      have hnot : ¬ A.length < rateLimit := by omega
      have hsub : rateLimit - A.length = 0 := by omega
      refine ⟨?_, ?_⟩
      · simp [runChecks, hstep, ih.1, expectedReplies, hnot]
      · simp [runChecks, hstep, ih.2, hsub]
    · have hstep : checkRateLimit rateLimit hist t phone =
          (true, setHist hist phone (A ++ [t])) := by
        simp [checkRateLimit, hA, hfilter, hcap]
      have ih := runChecks_eq_expected rateLimit phone ts
        (setHist hist phone (A ++ [t])) (A ++ [t])
        (lookupHist_setHist_self hist phone (A ++ [t]))
        (by
          intro a ha t' ht'
          rcases List.mem_append.mp ha with haA | hat
          · exact hAlive a haA t' (List.mem_cons_of_mem t ht')
          · have : a = t := by simpa using hat
            subst this
            exact hPair a (List.mem_cons_self a ts) t'
              (List.mem_cons_of_mem a ht'))
        (fun x hx y hy =>
          hPair x (List.mem_cons_of_mem t hx) y (List.mem_cons_of_mem t hy))
      have hlt : A.length < rateLimit := by omega
      have hsub : rateLimit - A.length = (rateLimit - (A.length + 1)) + 1 := by omega
      refine ⟨?_, ?_⟩
      · simp [runChecks, hstep, ih.1, expectedReplies, hlt]
      · have := ih.2
        simp only [List.length_append, List.length_cons, List.length_nil] at this
        simp [runChecks, hstep, this, hsub, List.take_succ_cons]

/-- C8: for any identity and configured maximum `N`, starting from an empty
history, a run of `N + 1` admission checks at nondecreasing instants that all
fall within one window grants exactly the first `N` and denies the
`(N + 1)`-th, and the stored timestamps afterwards are exactly the `N` granted
instants — the denied check recorded nothing. -/
theorem C8_window_admits_exactly_limit
    (rateLimit : Nat) (phone : String) (t0 : Int) (ts : List Int)
    (hlen : ts.length = rateLimit)
    (hmono : List.Chain' (fun a b : Int => a ≤ b) (t0 :: ts))
    (hwin : ∀ t ∈ t0 :: ts, t < t0 + rateLimitWindow) :
    (runChecks rateLimit [] phone (t0 :: ts)).1 =
      List.replicate rateLimit true ++ [false] ∧
    lookupHist (runChecks rateLimit [] phone (t0 :: ts)).2 phone =
      (t0 :: ts).take rateLimit := by
  have hsorted : List.Pairwise (fun a b : Int => a ≤ b) (t0 :: ts) :=
    List.chain'_iff_pairwise.mp hmono
  have hlow : ∀ t ∈ t0 :: ts, t0 ≤ t := by
    intro t ht
    rcases List.mem_cons.mp ht with h0 | hmem
    · exact h0 ▸ le_refl t0
    · exact (List.pairwise_cons.mp hsorted).1 t hmem
  have hPair : ∀ t ∈ t0 :: ts, ∀ t' ∈ t0 :: ts, t' - rateLimitWindow < t := by
    intro t ht t' ht'
    have h1 := hwin t' ht'
    have h2 := hlow t ht
    omega
  have main := runChecks_eq_expected rateLimit phone (t0 :: ts) [] [] rfl
    (by intro a ha; cases ha) hPair
  refine ⟨?_, ?_⟩
  · rw [main.1]
    have : (t0 :: ts).length = rateLimit + 1 := by simp [hlen]
    rw [this]
    exact expectedReplies_saturate rateLimit rateLimit 0 (by omega)
  · rw [main.2]
    simp

/-- Closed witness for C8: with a maximum of 2, three checks at instants 0,
10, 20 (all inside one hour) grant, grant, deny, and the stored history holds
exactly the two granted instants. -/
theorem C8_window_admits_exactly_limit_witness :
    (runChecks 2 [] "919876543210" [0, 10, 20]).1 =
      List.replicate 2 true ++ [false] ∧
    lookupHist (runChecks 2 [] "919876543210" [0, 10, 20]).2 "919876543210" =
      [0, 10] :=
  C8_window_admits_exactly_limit 2 "919876543210" 0 [10, 20] rfl
    (by norm_num [List.chain'_cons, List.chain'_singleton]) (by decide)

/-! ## C9 — login command handling -/

/-- A 43-character base64url key text; it decodes to exactly 32 bytes. -/
def key43 : String := "AAAAAAAAAAAAAAAAAAAAAAAAAAAAAAAAAAAAAAAAAAA"

/-- A concrete OAuth handler: rate limit 5, 24-hour TTL. -/
def demoOAuth : OAuthHandler :=
  NewOAuthHandler "https://chat.example.com" 5 "test-issuer" "test-aud" 86400

/-- C9 counterexample: the claim says any message whose keyword matches the
login command case-insensitively, carrying a valid 32-byte base64url key and a
long-enough nonce, yields the deep-link reply.  The message
`auth <key> <nonce>` matches `IsAuthCommand` case-insensitively and carries a
valid key and a 16-character nonce, yet `Handle` — whose strict parse regex
requires the uppercase `AUTH` — returns the invalid-format rejection, not a
deep link. -/
theorem C9_counterexample_lowercase_auth_rejected :
    IsAuthCommand ("auth " ++ key43 ++ " abcdefghijklmnop") = true ∧
    rawURLDecodedLength key43.data = some 32 ∧
    (demoOAuth.Handle false [] 0 "919876543210"
        ("auth " ++ key43 ++ " abcdefghijklmnop")).reply =
      some .invalidFormat := by
  refine ⟨by decide, by decide, by decide⟩

/-- C9 (amended): for every message whose trimmed body matches the strict
pattern — the keyword exactly as the uppercase `AUTH`, a base64url key text,
and a nonce of at least 16 characters — whose key decodes to exactly 32 bytes,
and with rate-limit capacity remaining, the handler replies with the deep link
`<spaURL>/auth#token=<token>&nonce=<nonce>` whose token carries `sub` equal to
the sender phone, `nonce` equal to the given nonce, and `pubkey` equal to the
given key. -/
theorem C9_amended_strict_auth_yields_login_link
    (h : OAuthHandler) (hist : RateHistory) (now : Int)
    (senderPhone messageBody : String) (key nonce : List Char)
    (hmatch : matchAuthCommand (goTrimSpace messageBody.data) = some (key, nonce))
    (hdec : rawURLDecodedLength key = some 32)
    (hcap : ((lookupHist hist senderPhone).filter
        (fun t => now - rateLimitWindow < t)).length < h.rateLimit) :
    (h.Handle false hist now senderPhone messageBody).reply =
      some (.loginLink h.spaURL
        { Nonce := ⟨nonce⟩, PubKey := ⟨key⟩, Subject := senderPhone,
          Issuer := h.issuer, Audience := h.audience,
          iat := now, exp := now + h.ttl } ⟨nonce⟩) := by
  have hnot : ¬ h.rateLimit ≤ ((lookupHist hist senderPhone).filter
      (fun t => now - rateLimitWindow < t)).length := by omega
  simp [OAuthHandler.Handle, hmatch, hdec, checkRateLimit, hnot, OAuthToken]

/-- Closed witness for C9 (amended): the uppercase command with the concrete
key and nonce produces the deep-link reply with `sub`, `nonce` and `pubkey`
equal to the inputs. -/
theorem C9_amended_strict_auth_yields_login_link_witness :
    (demoOAuth.Handle false [] 0 "919876543210"
        ("AUTH " ++ key43 ++ " abcdefghijklmnop")).reply =
      some (.loginLink demoOAuth.spaURL
        { Nonce := "abcdefghijklmnop", PubKey := key43,
          Subject := "919876543210", Issuer := demoOAuth.issuer,
          Audience := demoOAuth.audience, iat := 0,
          exp := 0 + demoOAuth.ttl } "abcdefghijklmnop") :=
  C9_amended_strict_auth_yields_login_link demoOAuth [] 0 "919876543210"
    ("AUTH " ++ key43 ++ " abcdefghijklmnop") key43.data "abcdefghijklmnop".data
    (by decide) (by decide) (by decide)

/-! ## C10 — malformed login commands -/

/-- C10: a malformed login command — the trimmed body does not match the
strict two-token pattern, or the captured key is not valid unpadded base64url,
or it does not decode to exactly 32 bytes — produces one of the three
rejection replies, returns no error, and leaves the rate limiter's state
(every identity's recorded timestamps) completely unchanged, for every handler
configuration, history, instant and sender. -/
theorem C10_malformed_command_leaves_rate_state_unchanged
    (h : OAuthHandler) (signFail : Bool) (hist : RateHistory) (now : Int)
    (senderPhone messageBody : String)
    (hmal : matchAuthCommand (goTrimSpace messageBody.data) = none ∨
      ∃ key nonce,
        matchAuthCommand (goTrimSpace messageBody.data) = some (key, nonce) ∧
        rawURLDecodedLength key ≠ some 32) :
    ((h.Handle signFail hist now senderPhone messageBody).reply =
        some .invalidFormat ∨
     (h.Handle signFail hist now senderPhone messageBody).reply =
        some .invalidBase64 ∨
     ∃ n, n ≠ 32 ∧
       (h.Handle signFail hist now senderPhone messageBody).reply =
         some (.invalidKeyLength n)) ∧
    (h.Handle signFail hist now senderPhone messageBody).errored = false ∧
    (h.Handle signFail hist now senderPhone messageBody).hist = hist := by
  rcases hmal with hnone | ⟨key, nonce, hsome, hdec⟩
  · refine ⟨Or.inl ?_, ?_, ?_⟩ <;> simp [OAuthHandler.Handle, hnone]
  · cases hn : rawURLDecodedLength key with
    | none =>
      refine ⟨Or.inr (Or.inl ?_), ?_, ?_⟩ <;>
        simp [OAuthHandler.Handle, hsome, hn]
    | some n =>
      have h32 : n ≠ 32 := fun hEq => hdec (hEq ▸ hn)
      refine ⟨Or.inr (Or.inr ⟨n, h32, ?_⟩), ?_, ?_⟩ <;>
        simp [OAuthHandler.Handle, hsome, hn, h32]

/-- Closed witness for C10: `AUTH onlyonearg` does not match the strict
pattern; with a non-empty history the handler rejects without error and the
history is untouched. -/
theorem C10_malformed_command_leaves_rate_state_unchanged_witness :
    ((demoOAuth.Handle false [("919876543210", [0])] 50 "919876543210"
        "AUTH onlyonearg").reply = some .invalidFormat ∨
     (demoOAuth.Handle false [("919876543210", [0])] 50 "919876543210"
        "AUTH onlyonearg").reply = some .invalidBase64 ∨
     ∃ n, n ≠ 32 ∧
       (demoOAuth.Handle false [("919876543210", [0])] 50 "919876543210"
          "AUTH onlyonearg").reply = some (.invalidKeyLength n)) ∧
    (demoOAuth.Handle false [("919876543210", [0])] 50 "919876543210"
      "AUTH onlyonearg").errored = false ∧
    (demoOAuth.Handle false [("919876543210", [0])] 50 "919876543210"
      "AUTH onlyonearg").hist = [("919876543210", [0])] :=
  C10_malformed_command_leaves_rate_state_unchanged demoOAuth false
    [("919876543210", [0])] 50 "919876543210" "AUTH onlyonearg"
    (Or.inl (by decide))

end WhatsADK
